import Mathlib

/-!
Verification development for the Solana token launchpad repository.

Strings from the TypeScript source are modelled as `List Char`; JavaScript
`BigInt` arithmetic as `Int`/`Nat`; SOL amounts (JavaScript numbers) as `Rat`
(binary floating-point rounding of the four small cost constants is
abstracted); fallible calls as `Except`.  External collaborators (the RPC
connection, the wallet adapter, the Pinata pinning service) are supplied as
oracles recording the result of each awaited call, and the functions under
study are translated statement by statement from the source files.
-/

/-- The whitespace test used by JavaScript `String.prototype.trim` (the
common members of the WhiteSpace / LineTerminator productions). -/
def isJsSpace (c : Char) : Bool :=
  c == ' ' || c == '\t' || c == '\n' || c == '\r' || c == '\x0b' ||
    c == '\x0c' || c == '\u00A0' || c == '\uFEFF'

/-- JavaScript `String.prototype.trim`: drop whitespace from both ends. -/
def jsTrim (s : List Char) : List Char :=
  ((s.dropWhile isJsSpace).reverse.dropWhile isJsSpace).reverse

/-- Value of a base-10 digit string, as read by JavaScript `BigInt(...)`. -/
def digitsToNat (s : List Char) : Nat :=
  s.foldl (fun acc c => acc * 10 + (c.toNat - '0'.toNat)) 0

/-- JavaScript `String.prototype.toUpperCase`, restricted to the ASCII
mapping of `Char.toUpper` (the forms the launch form can contain). -/
def jsToUpper (s : List Char) : List Char :=
  s.map Char.toUpper

/-- Model of the ECMAScript `Number(string)` coercion as used on the
decimals field, returning `some n` for the integral values and `none` for
NaN or non-integral results.  An empty or whitespace-only string maps to 0
and an optionally signed decimal-digit string to its value; the remaining
numeric forms the real coercion accepts (fractions, exponents, hex,
Infinity) are not integers the validator would accept as written by the
number input and are conservatively mapped to `none`, which the validator
reports exactly like NaN ("must be a whole number"). -/
def jsNumberInt (s : List Char) : Option Int :=
  let t := jsTrim s
  if t.isEmpty then some 0
  else
    match t with
    | '-' :: rest =>
        if !rest.isEmpty && rest.all Char.isDigit then
          some (-(digitsToNat rest : Int))
        else none
    | '+' :: rest =>
        if !rest.isEmpty && rest.all Char.isDigit then
          some ((digitsToNat rest : Int))
        else none
    | _ =>
        if t.all Char.isDigit then some ((digitsToNat t : Int)) else none

/-- Form-field length and size ceilings from the page source. -/
def MAX_NAME_LENGTH : Nat := 32

def MAX_SYMBOL_LENGTH : Nat := 10

def MAX_DESCRIPTION_LENGTH : Nat := 200

def MAX_IMAGE_SIZE_BYTES : Nat := 5 * 1024 * 1024

/-- Unsigned 64-bit ceiling against which the supply is checked. -/
def U64_MAX : Nat := 18446744073709551615

/-- The `LaunchForm` record of the page component. -/
structure LaunchForm where
  name : List Char
  symbol : List Char
  decimals : List Char
  supply : List Char
  description : List Char
  metadataUrl : List Char
  website : List Char
  twitter : List Char
  telegram : List Char
deriving DecidableEq

/-- An uploaded file as the validator sees it: byte size and MIME type. -/
structure ImageFile where
  size : Nat
  type : List Char
deriving DecidableEq

/-- The `FormErrors` record: one optional message per validated field. -/
structure FormErrors where
  name : Option String
  symbol : Option String
  decimals : Option String
  supply : Option String
  description : Option String
  image : Option String
deriving DecidableEq

/-- `Object.keys(errors).length === 0`: the error object has a key exactly
for each field whose checks assigned a message. -/
def FormErrors.isEmpty (e : FormErrors) : Bool :=
  e.name.isNone && e.symbol.isNone && e.decimals.isNone &&
    e.supply.isNone && e.description.isNone && e.image.isNone

/-- Character class of the name regex `[a-zA-Z0-9\s\-_]`. -/
def isNameChar (c : Char) : Bool :=
  c.isAlpha || c.isDigit || isJsSpace c || c == '-' || c == '_'

/-- Character class of the symbol regex `[A-Z0-9]`. -/
def isSymbolChar (c : Char) : Bool :=
  ('A' ≤ c && c ≤ 'Z') || c.isDigit

/-- `toBigIntAmount` from the page source: trim, return 0n for an empty
result, reject a string that is not entirely ASCII digits (the regex
`^\d+$` on a nonempty string), else multiply the BigInt value by
`10n ** BigInt(decimals)`. -/
def toBigIntAmount (value : List Char) (decimals : Nat) : Except String Int :=
  let trimmed := jsTrim value
  if trimmed.isEmpty then .ok 0
  else if !(trimmed.all Char.isDigit) then
    .error ("Only whole numbers are supported for supply.")
  else .ok ((digitsToNat trimmed : Int) * 10 ^ decimals)

/-- Name checks of `validateForm` (lines 94-101 of the page source). -/
def nameError (name : List Char) : Option String :=
  if (jsTrim name).isEmpty then some ("Token name is required")
  else if name.length > MAX_NAME_LENGTH then
    some ("Name must be 32 characters or less")
  else if !(!name.isEmpty && name.all isNameChar) then
    some ("Name can only contain letters, numbers, spaces, hyphens, and underscores")
  else none

/-- Symbol checks of `validateForm` (lines 104-110): required after trim,
length ceiling on the raw string, then the regex `^[A-Z0-9]+$` applied to
the uppercased raw string. -/
def symbolError (symbol : List Char) : Option String :=
  if (jsTrim symbol).isEmpty then some ("Token symbol is required")
  else if symbol.length > MAX_SYMBOL_LENGTH then
    some ("Symbol must be 10 characters or less")
  else if !(!(jsToUpper symbol).isEmpty && (jsToUpper symbol).all isSymbolChar) then
    some ("Symbol can only contain letters and numbers")
  else none

/-- Decimals checks of `validateForm` (lines 113-118): `Number(...)`
coercion, integrality, then the closed range 0..9. -/
def decimalsError (decimals : List Char) : Option String :=
  match jsNumberInt decimals with
  | none => some ("Decimals must be a whole number")
  | some d =>
      if d < 0 || d > 9 then some ("Decimals must be between 0 and 9")
      else none

/-- Supply checks of `validateForm` (lines 121-129).  The parsed value of a
digit string is nonnegative, so the source comparison `<= 0n` is the
`Nat` comparison `≤ 0`. -/
def supplyError (supply : List Char) : Option String :=
  if (jsTrim supply).isEmpty then some ("Supply is required")
  else if !((jsTrim supply).all Char.isDigit) then
    some ("Supply must be a whole number")
  else if digitsToNat (jsTrim supply) ≤ 0 then
    some ("Supply must be greater than 0")
  else if digitsToNat (jsTrim supply) > U64_MAX then
    some ("Supply exceeds maximum allowed value")
  else none

/-- Description check of `validateForm` (lines 132-134). -/
def descriptionError (description : List Char) : Option String :=
  if description.length > MAX_DESCRIPTION_LENGTH then
    some ("Description must be 200 characters or less")
  else none

/-- The accepted image MIME types. -/
def VALID_IMAGE_TYPES : List (List Char) :=
  ["image/jpeg".toList, "image/png".toList, "image/gif".toList, "image/webp".toList]

/-- Image checks of `validateForm` (lines 137-145): the type check runs
after the size check and overwrites its message. -/
def imageError (imageFile : Option ImageFile) : Option String :=
  match imageFile with
  | none => none
  | some f =>
      let sizeMsg : Option String :=
        if f.size > MAX_IMAGE_SIZE_BYTES then some ("Image must be 5MB or less")
        else none
      if !(VALID_IMAGE_TYPES.contains f.type) then
        some ("Image must be JPEG, PNG, GIF, or WebP")
      else sizeMsg

/-- `validateForm` from the page source: the checks of each field are
independent and contribute at most one message. -/
def validateForm (form : LaunchForm) (imageFile : Option ImageFile) : FormErrors :=
  { name := nameError form.name
    symbol := symbolError form.symbol
    decimals := decimalsError form.decimals
    supply := supplyError form.supply
    description := descriptionError form.description
    image := imageError imageFile }

/-- `Object.values(errors)[0]`: the first message in field insertion
order. -/
def firstErrorMessage (e : FormErrors) : Option String :=
  e.name <|> e.symbol <|> e.decimals <|> e.supply <|> e.description <|> e.image

/-- The server process environment read by the upload route: the three
Pinata credential variables, each possibly unset. -/
structure PinataEnv where
  jwt : Option (List Char)
  apiKey : Option (List Char)
  apiSecret : Option (List Char)
deriving DecidableEq

/-- `!!process.env.PINATA_JWT?.trim()`: a set variable whose trimmed value
is a nonempty string. -/
def envHasJwt (env : PinataEnv) : Bool :=
  match env.jwt with
  | some j => !(jsTrim j).isEmpty
  | none => false

/-- `!!PINATA_API_KEY?.trim() && !!PINATA_API_SECRET?.trim()`. -/
def envHasApiKey (env : PinataEnv) : Bool :=
  (match env.apiKey with
    | some k => !(jsTrim k).isEmpty
    | none => false) &&
  (match env.apiSecret with
    | some s => !(jsTrim s).isEmpty
    | none => false)

/-- The multipart form as the route reads it: `image` is `some` exactly
when the field holds a `File`, and the six text fields are the raw values
before the trimming the route itself performs. -/
structure UploadRequest where
  image : Option ImageFile
  name : List Char
  symbol : List Char
  description : List Char
  website : List Char
  twitter : List Char
  telegram : List Char
deriving DecidableEq

/-- Outcome of one fetch against a Pinata pinning endpoint: an OK response
carrying an `IpfsHash`, an OK response without one, or a non-OK status. -/
inductive PinataReply where
  | ok (hash : List Char)
  | okNoHash
  | httpError
deriving DecidableEq

/-- Results the pinning service would return for the two pin calls. -/
structure PinOracle where
  fileReply : PinataReply
  jsonReply : PinataReply
deriving DecidableEq

def isOkReply : PinataReply → Bool
  | .ok _ => true
  | _ => false

/-- The `extensions` block of the generated metadata document: each social
key is present exactly when it was added by the conditional spread. -/
structure TokenExtensions where
  website : Option (List Char)
  twitter : Option (List Char)
  telegram : Option (List Char)
deriving DecidableEq

/-- The metadata JSON document built by the route (lines 197-225).  The
constant members (`attributes: []`, `properties.category: "image"`) are
omitted; `fileUri`/`fileType` are the single `properties.files` entry. -/
structure TokenMetadata where
  name : List Char
  symbol : List Char
  description : List Char
  image : List Char
  fileUri : List Char
  fileType : List Char
  external_url : Option (List Char)
  extensions : Option TokenExtensions
deriving DecidableEq

/-- A conditional spread `...(value && { key: value })` over a string:
the key is added exactly when the string is nonempty. -/
def optNonEmpty (s : List Char) : Option (List Char) :=
  if s.isEmpty then none else some s

/-- Build the metadata document from the already-trimmed field values,
then delete the `extensions` member when it has no keys. -/
def buildMetadata (name symbol description imageUrl fileType website twitter telegram : List Char) :
    TokenMetadata :=
  let ext : TokenExtensions :=
    { website := optNonEmpty website
      twitter := optNonEmpty twitter
      telegram := optNonEmpty telegram }
  { name := name
    symbol := jsToUpper symbol
    description := description
    image := imageUrl
    fileUri := imageUrl
    fileType := fileType
    external_url := optNonEmpty website
    extensions :=
      if ext.website.isNone && ext.twitter.isNone && ext.telegram.isNone then none
      else some ext }

/-- The JSON body of a route response: an error message or the success
payload with the two gateway URLs. -/
inductive UploadBody where
  | errorBody (message : String)
  | successBody (imageUrl metadataUrl : List Char)
deriving DecidableEq

/-- One outbound call to the pinning service. -/
inductive PinCall where
  | pinFile (file : ImageFile)
  | pinJson (metadata : TokenMetadata)
deriving DecidableEq

/-- A route response together with the outbound pinning calls performed
while producing it. -/
structure UploadResult where
  status : Nat
  body : UploadBody
  calls : List PinCall
deriving DecidableEq

def ipfsGatewayUrl (cid : List Char) : List Char :=
  "https://gateway.pinata.cloud/ipfs/".toList ++ cid

/-- The upload route handler `POST` (src/app/api/upload/route.ts).  Thrown
errors inside `uploadFileToPinata` / `uploadJsonToPinata` reach the
catch block of the handler, which answers 500 with the error message; the
interpolated limits in the 400 messages are written out resolved. -/
def POST (env : PinataEnv) (req : UploadRequest) (oracle : PinOracle) : UploadResult :=
  if !envHasJwt env && !envHasApiKey env then
    ⟨500, .errorBody ("Server configuration error: Missing Pinata credentials."), []⟩
  else
    let name := jsTrim req.name
    let symbol := jsTrim req.symbol
    let description := jsTrim req.description
    let website := jsTrim req.website
    let twitter := jsTrim req.twitter
    let telegram := jsTrim req.telegram
    match req.image with
    | none => ⟨400, .errorBody ("Please provide an image file."), []⟩
    | some image =>
      if image.size > MAX_IMAGE_SIZE_BYTES then
        ⟨400, .errorBody ("Image too large. Maximum size is 5MB."), []⟩
      else if !(VALID_IMAGE_TYPES.contains image.type) then
        ⟨400, .errorBody ("Invalid image format. Allowed: JPEG, PNG, GIF, WebP."), []⟩
      else if name.isEmpty then
        ⟨400, .errorBody ("Token name is required."), []⟩
      else if name.length > MAX_NAME_LENGTH then
        ⟨400, .errorBody ("Token name must be 32 characters or less."), []⟩
      else if symbol.isEmpty then
        ⟨400, .errorBody ("Token symbol is required."), []⟩
      else if symbol.length > MAX_SYMBOL_LENGTH then
        ⟨400, .errorBody ("Symbol must be 10 characters or less."), []⟩
      else if description.length > MAX_DESCRIPTION_LENGTH then
        ⟨400, .errorBody ("Description must be 200 characters or less."), []⟩
      else
        match oracle.fileReply with
        | .httpError =>
            ⟨500, .errorBody ("Failed to upload image to IPFS"), [.pinFile image]⟩
        | .okNoHash =>
            ⟨500, .errorBody ("IPFS upload failed - no hash returned"), [.pinFile image]⟩
        | .ok cid =>
            let imageUrl := ipfsGatewayUrl cid
            let metadata :=
              buildMetadata name symbol description imageUrl image.type website twitter telegram
            match oracle.jsonReply with
            | .httpError =>
                ⟨500, .errorBody ("Failed to upload metadata to IPFS"),
                  [.pinFile image, .pinJson metadata]⟩
            | .okNoHash =>
                ⟨500, .errorBody ("IPFS upload failed - no hash returned"),
                  [.pinFile image, .pinJson metadata]⟩
            | .ok mcid =>
                ⟨200, .successBody imageUrl (ipfsGatewayUrl mcid),
                  [.pinFile image, .pinJson metadata]⟩

/-- The validation rules of the route as a predicate on the request, read off
the trimmed field values exactly as the handler tests them. -/
def uploadValidationFails (req : UploadRequest) : Bool :=
  match req.image with
  | none => true
  | some image =>
      decide (image.size > MAX_IMAGE_SIZE_BYTES) ||
      !(VALID_IMAGE_TYPES.contains image.type) ||
      (jsTrim req.name).isEmpty ||
      decide ((jsTrim req.name).length > MAX_NAME_LENGTH) ||
      (jsTrim req.symbol).isEmpty ||
      decide ((jsTrim req.symbol).length > MAX_SYMBOL_LENGTH) ||
      decide ((jsTrim req.description).length > MAX_DESCRIPTION_LENGTH)

/-- The validation rules exactly as the claim words them, on the supplied
(untrimmed) field values; kept separate from `uploadValidationFails` so
the two readings can be compared. -/
def uploadValidationFailsLiteral (req : UploadRequest) : Bool :=
  match req.image with
  | none => true
  | some image =>
      decide (image.size > MAX_IMAGE_SIZE_BYTES) ||
      !(VALID_IMAGE_TYPES.contains image.type) ||
      req.name.isEmpty ||
      decide (req.name.length > MAX_NAME_LENGTH) ||
      req.symbol.isEmpty ||
      decide (req.symbol.length > MAX_SYMBOL_LENGTH) ||
      decide (req.description.length > MAX_DESCRIPTION_LENGTH)

/-- The metadata document the route builds for a request whose image was
pinned under `cid`. -/
def uploadMetadataOf (req : UploadRequest) (image : ImageFile) (cid : List Char) :
    TokenMetadata :=
  buildMetadata (jsTrim req.name) (jsTrim req.symbol) (jsTrim req.description)
    (ipfsGatewayUrl cid) image.type (jsTrim req.website) (jsTrim req.twitter)
    (jsTrim req.telegram)

/-- Kind of a displayed status message. -/
inductive StatusType where
  | info
  | success
  | error
deriving DecidableEq

/-- A thrown JavaScript value as the catch blocks classify it: an `Error`
carrying a message, or any other value. -/
inductive JsError where
  | jsError (msg : String)
  | nonError
deriving DecidableEq

/-- The generic fallback of the catch block of `createToken`. -/
def createTokenFallback : String := "Token creation failed. Please try again."

/-- `error instanceof Error ? error.message : <fallback>` in `createToken`. -/
def createTokenCaughtMessage : JsError → String
  | .jsError m => m
  | .nonError => createTokenFallback

/-- On-chain addresses, opaque to this code. -/
abbrev Address := Nat

/-- `MINT_SIZE` of the SPL token program. -/
def MINT_SIZE : Nat := 82

/-- `AuthorityType` values used by the revocation step. -/
inductive AuthorityKind where
  | mintTokens
  | freezeAccount
deriving DecidableEq

/-- The instructions `createToken` places into its three transactions,
with the arguments the claims speak about. -/
inductive TokenInstruction where
  | createAccount (newAccount : Address) (space : Nat) (lamports : Nat)
  | initializeMint (mint : Address) (decimals : Int) (mintAuthority freezeAuthority : Address)
  | createAssociatedTokenAccount (payer ata owner mint : Address)
  | mintTo (mint dest authority : Address) (amount : Int)
  | createMetadataAccountV3 (metadataName metadataSymbol uri : List Char)
      (sellerFeeBasisPoints : Nat) (isMutable : Bool)
  | setAuthority (mint currentAuthority : Address) (authorityType : AuthorityKind)
      (newAuthority : Option Address)
deriving DecidableEq

/-- Is this the metadata-creation instruction? -/
def TokenInstruction.isMetadataIx : TokenInstruction → Bool
  | .createMetadataAccountV3 _ _ _ _ _ => true
  | _ => false

/-- Is this an authority-change instruction? -/
def TokenInstruction.isSetAuthorityIx : TokenInstruction → Bool
  | .setAuthority _ _ _ _ => true
  | _ => false

/-- A transaction is its instruction list. -/
abbrev Tx := List TokenInstruction

/-- Results of the awaited external calls `createToken` can perform, in
program order.  A `.error` value is the call throwing (for the two wallet
calls this includes the user rejecting the signature request). -/
structure ChainOracle where
  rentExemption : Except JsError Nat
  ata : Address
  latestBlockhash : Except JsError Nat
  sendMintTx : Except JsError Nat
  confirmMintTx : Except JsError Unit
  sendMetadataTx : Except JsError Nat
  confirmMetadataTx : Except JsError Unit
  sendRevokeTx : Except JsError Nat
  confirmRevokeTx : Except JsError Unit

/-- The component state `createToken` reads and writes. -/
structure UIState where
  status : String
  statusType : StatusType
  currentStep : Nat
  mintAddress : Option Address
  tokenAccount : Option Address
  isLaunching : Bool
  formErrors : FormErrors
deriving DecidableEq

/-- Everything `createToken` consumes: wallet key, form, image, balance
reading, the generated mint keypair and the oracle of external calls. -/
structure CreateTokenInput where
  publicKey : Option Address
  form : LaunchForm
  imageFile : Option ImageFile
  walletBalance : Option Rat
  mintKeypair : Address
  oracle : ChainOracle

/-- Final component state plus the transactions the wallet accepted and
submitted, in order. -/
structure CreateTokenResult where
  ui : UIState
  submitted : List Tx
deriving DecidableEq

/-- `ESTIMATED_COSTS` (page source lines 68-73), in SOL. -/
def ESTIMATED_COSTS_mintAccount : Rat := 0.00145

def ESTIMATED_COSTS_tokenAccount : Rat := 0.00204

def ESTIMATED_COSTS_metadataAccount : Rat := 0.01

def ESTIMATED_COSTS_transactions : Rat := 0.00015

/-- `TOTAL_ESTIMATED_COST`: the sum of the four cost constants. -/
def TOTAL_ESTIMATED_COST : Rat :=
  ESTIMATED_COSTS_mintAccount + ESTIMATED_COSTS_tokenAccount +
    ESTIMATED_COSTS_metadataAccount + ESTIMATED_COSTS_transactions

/-- `walletBalance !== null && walletBalance < TOTAL_ESTIMATED_COST`. -/
def balanceBelowCost : Option Rat → Bool
  | none => false
  | some b => decide (b < TOTAL_ESTIMATED_COST)

/-- Status text of the insufficient-balance early return.  The source
interpolates the threshold and the balance through `toFixed(4)`, a decimal
rendering this model does not reproduce; only the leading text is kept. -/
def insufficientBalanceMessage : String := "Insufficient balance."

/-- The four instructions of the mint-creation transaction (lines
457-483). -/
def mintTxIxs (pk mint ata : Address) (lamports : Nat) (decimals : Int) (amount : Int) : Tx :=
  [ .createAccount mint MINT_SIZE lamports,
    .initializeMint mint decimals pk pk,
    .createAssociatedTokenAccount pk ata pk mint,
    .mintTo mint ata pk amount ]

/-- The metadata-creation transaction (lines 520-545): trimmed name,
trimmed uppercased symbol, trimmed URI, zero seller fee, immutable. -/
def metadataTxIxs (form : LaunchForm) : Tx :=
  [ .createMetadataAccountV3 (jsTrim form.name) (jsToUpper (jsTrim form.symbol))
      (jsTrim form.metadataUrl) 0 false ]

/-- The authority-revocation transaction (lines 557-570): revoke the mint
authority, then the freeze authority, both to null. -/
def revokeTxIxs (pk mint : Address) : Tx :=
  [ .setAuthority mint pk .mintTokens none,
    .setAuthority mint pk .freezeAccount none ]

/-- Step 4 of the sequence: submit and confirm the revocation
transaction. -/
def createTokenFinish (inp : CreateTokenInput) (pk : Address) (sofar : List Tx) :
    Except JsError Unit × List Tx :=
  let revokeTx := revokeTxIxs pk inp.mintKeypair
  match inp.oracle.sendRevokeTx with
  | .error e => (.error e, sofar)
  | .ok _ =>
    match inp.oracle.confirmRevokeTx with
    | .error e => (.error e, sofar ++ [revokeTx])
    | .ok _ => (.ok (), sofar ++ [revokeTx])

/-- The body of the try block of `createToken`: rent query, amount scaling,
the mint transaction (built, signed, confirmed), the optional metadata
transaction, then the revocation transaction.  Returns the first thrown
error, if any, and the transactions submitted before it. -/
def createTokenSteps (inp : CreateTokenInput) (pk : Address) :
    Except JsError Unit × List Tx :=
  let decimals : Int := (jsNumberInt inp.form.decimals).getD 0
  match inp.oracle.rentExemption with
  | .error e => (.error e, [])
  | .ok lamports =>
    let ata := inp.oracle.ata
    match toBigIntAmount inp.form.supply decimals.toNat with
    | .error m => (.error (.jsError m), [])
    | .ok amount =>
      let mintTx := mintTxIxs pk inp.mintKeypair ata lamports decimals amount
      match inp.oracle.latestBlockhash with
      | .error e => (.error e, [])
      | .ok _ =>
        match inp.oracle.sendMintTx with
        | .error e => (.error e, [])
        | .ok _ =>
          match inp.oracle.confirmMintTx with
          | .error e => (.error e, [mintTx])
          | .ok _ =>
            if (jsTrim inp.form.metadataUrl).isEmpty then
              createTokenFinish inp pk [mintTx]
            else
              let metaTx := metadataTxIxs inp.form
              match inp.oracle.sendMetadataTx with
              | .error e => (.error e, [mintTx])
              | .ok _ =>
                match inp.oracle.confirmMetadataTx with
                | .error e => (.error e, [mintTx, metaTx])
                | .ok _ => createTokenFinish inp pk [mintTx, metaTx]

/-- The component state after the catch block of `createToken` runs: the error
message is displayed, the status type is error, the step counter is reset
to zero, and the finally block clears the launching flag. -/
def createTokenErrorUI (prior : UIState) (e : JsError) : UIState :=
  { prior with
      status := createTokenCaughtMessage e
      statusType := .error
      currentStep := 0
      isLaunching := false }

/-- `createToken` (page source lines 418-595): the wallet gate, the
validation gate, the balance gate, then the orchestrated sequence whose
try/catch collapses any step failure into an error state. -/
def createToken (prior : UIState) (inp : CreateTokenInput) : CreateTokenResult :=
  match inp.publicKey with
  | none =>
      ⟨{ prior with status := "Please connect your Phantom wallet first.",
                    statusType := .error }, []⟩
  | some pk =>
    let errors := validateForm inp.form inp.imageFile
    if !errors.isEmpty then
      ⟨{ prior with
           formErrors := errors,
           status := (firstErrorMessage errors).getD "Please fix the form errors.",
           statusType := .error }, []⟩
    else if balanceBelowCost inp.walletBalance then
      ⟨{ prior with status := insufficientBalanceMessage, statusType := .error }, []⟩
    else
      match createTokenSteps inp pk with
      | (.ok _, txs) =>
          ⟨{ prior with
               status := "Token created successfully! Mint and freeze authorities have been revoked.",
               statusType := .success,
               currentStep := 5,
               mintAddress := some inp.mintKeypair,
               tokenAccount := some inp.oracle.ata,
               isLaunching := false }, txs⟩
      | (.error e, txs) => ⟨createTokenErrorUI prior e, txs⟩

/-- A minimal form state every validator check accepts. -/
def validForm : LaunchForm :=
  { name := "A".toList
    symbol := "A".toList
    decimals := "9".toList
    supply := "5".toList
    description := []
    metadataUrl := []
    website := []
    twitter := []
    telegram := [] }

/-- The accepted form state with the largest supply the validator allows. -/
def maxSupplyForm : LaunchForm :=
  { validForm with supply := "18446744073709551615".toList }

/-- A form whose supply has surrounding blanks and whose symbol has
characters outside `[A-Z0-9]`. -/
def cexForm : LaunchForm :=
  { validForm with symbol := "!!!".toList, supply := " 5 ".toList }

/-- A form whose decimals field is a single blank. -/
def blankDecimalsForm : LaunchForm :=
  { validForm with decimals := " ".toList }

/-- An initial component state. -/
def ui0 : UIState :=
  { status := ""
    statusType := .info
    currentStep := 0
    mintAddress := none
    tokenAccount := none
    isLaunching := false
    formErrors := ⟨none, none, none, none, none, none⟩ }

/-- An oracle on which every external call of the sequence succeeds. -/
def okOracle : ChainOracle :=
  { rentExemption := .ok 1461600
    ata := 3
    latestBlockhash := .ok 1
    sendMintTx := .ok 11
    confirmMintTx := .ok ()
    sendMetadataTx := .ok 12
    confirmMetadataTx := .ok ()
    sendRevokeTx := .ok 13
    confirmRevokeTx := .ok () }

/-- An oracle on which the wallet rejects the first signature request. -/
def rejectMintOracle : ChainOracle :=
  { okOracle with sendMintTx := .error (.jsError "User rejected the request.") }

/-- Inputs for a run that succeeds with no metadata URI. -/
def inpSkipMeta : CreateTokenInput :=
  { publicKey := some 1
    form := validForm
    imageFile := none
    walletBalance := none
    mintKeypair := 2
    oracle := okOracle }

/-- Inputs for a run whose first signature request is rejected. -/
def inpRejected : CreateTokenInput :=
  { inpSkipMeta with oracle := rejectMintOracle }

/-- Inputs with no wallet connected. -/
def inpNoWallet : CreateTokenInput :=
  { inpSkipMeta with publicKey := none }

/-- A server environment with no Pinata credentials configured. -/
def envNoCreds : PinataEnv := ⟨none, none, none⟩

/-- A server environment with a JWT configured. -/
def envJwt : PinataEnv := ⟨some ("j".toList), none, none⟩

/-- A small PNG upload. -/
def img0 : ImageFile := ⟨100, "image/png".toList⟩

/-- A request every route check accepts, carrying one social link. -/
def reqValid : UploadRequest :=
  { image := some img0
    name := "Name".toList
    symbol := "SYM".toList
    description := []
    website := "https://a.example".toList
    twitter := []
    telegram := [] }

/-- A request with no image field. -/
def reqNoImage : UploadRequest :=
  { reqValid with image := none }

/-- A request whose name is a single blank. -/
def reqSpaceName : UploadRequest :=
  { reqValid with name := " ".toList }

/-- A pinning oracle on which both pin calls succeed. -/
def okPins : PinOracle := ⟨.ok ("c1".toList), .ok ("m1".toList)⟩

theorem not_isJsSpace_of_isDigit (c : Char) (h : c.isDigit = true) : isJsSpace c = false := by
  cases hs : isJsSpace c with
  | false => rfl
  | true =>
    exfalso
    simp only [isJsSpace, Bool.or_eq_true, beq_iff_eq] at hs
    rcases hs with ((((((h1 | h1) | h1) | h1) | h1) | h1) | h1) | h1 <;> subst h1 <;>
      exact absurd h (by decide)

theorem dropWhile_isJsSpace_of_all_digits (l : List Char) (h : l.all Char.isDigit = true) :
    l.dropWhile isJsSpace = l := by
  cases l with
  | nil => rfl
  | cons a t =>
    have ha : a.isDigit = true := by
      simp only [List.all_cons, Bool.and_eq_true] at h
      exact h.1
    simp [List.dropWhile_cons, not_isJsSpace_of_isDigit a ha]

theorem jsTrim_of_all_digits (l : List Char) (h : l.all Char.isDigit = true) : jsTrim l = l := by
  have hrev : l.reverse.all Char.isDigit = true := by
    rw [List.all_eq_true] at h ⊢
    intro c hc
    exact h c (List.mem_reverse.mp hc)
  unfold jsTrim
  rw [dropWhile_isJsSpace_of_all_digits l h, dropWhile_isJsSpace_of_all_digits l.reverse hrev,
    List.reverse_reverse]

theorem dropWhile_isJsSpace_of_all_space (l : List Char) (h : l.all isJsSpace = true) :
    l.dropWhile isJsSpace = [] := by
  induction l with
  | nil => rfl
  | cons a t ih =>
    simp only [List.all_cons, Bool.and_eq_true] at h
    simp [List.dropWhile_cons, h.1, ih h.2]

theorem jsTrim_of_all_space (l : List Char) (h : l.all isJsSpace = true) : jsTrim l = [] := by
  unfold jsTrim
  rw [dropWhile_isJsSpace_of_all_space l h]
  rfl

theorem source_nonempty_of_jsTrim_nonempty (s : List Char) (h : (jsTrim s).isEmpty = false) :
    s.isEmpty = false := by
  cases s with
  | nil => exact absurd h (by decide)
  | cons a t => rfl

theorem toBigIntAmount_of_supply_ok (s : List Char) (d : Nat) (h : supplyError s = none) :
    toBigIntAmount s d = .ok ((digitsToNat (jsTrim s) : Int) * 10 ^ d) := by
  unfold supplyError at h
  split_ifs at h with h1 h2 h3 h4
  unfold toBigIntAmount
  simp only [h1, Bool.not_eq_true] at *
  rw [if_neg (by simp [h1]), if_neg (by simpa using h2)]

/-- C1 counterexample: the supply string " 5" is nonempty and contains a
non-digit character (the blank), yet the computation does not raise an
error: trimming happens first, so it returns 5 × 10^9. -/
theorem toBigIntAmount_claim_counterexample :
    (" 5".toList).isEmpty = false ∧ (" 5".toList).all Char.isDigit = false ∧
      toBigIntAmount (" 5".toList) 9 = .ok (5 * 10 ^ 9) :=
  ⟨rfl, rfl, by rfl⟩

/-- C1 (amended): for decimals in [0,9], a supply string of base-10 digits
scales exactly to its value times 10^decimals as an arbitrary-precision
integer (in particular "1000000000" with decimals 9 gives 10^9 × 10^9
exactly); an empty or whitespace-only supply yields 0; and a string whose
trimmed form is nonempty and contains a non-digit character raises an
error. -/
theorem toBigIntAmount_spec (s : List Char) (d : Nat) (_hd : d ≤ 9) :
    (s.all Char.isDigit = true →
      toBigIntAmount s d = .ok ((digitsToNat s : Int) * 10 ^ d)) ∧
    (s.all isJsSpace = true → toBigIntAmount s d = .ok 0) ∧
    ((jsTrim s).isEmpty = false → (jsTrim s).all Char.isDigit = false →
      toBigIntAmount s d = .error ("Only whole numbers are supported for supply.")) ∧
    toBigIntAmount ("1000000000".toList) 9 = .ok (1000000000 * 10 ^ 9) := by
  refine ⟨?_, ?_, ?_, by rfl⟩
  · intro h
    simp only [toBigIntAmount]
    rw [jsTrim_of_all_digits s h]
    cases s with
    | nil => simp [digitsToNat]
    | cons a t =>
      rw [if_neg (by simp), if_neg (by simp [h])]
  · intro h
    simp only [toBigIntAmount]
    rw [jsTrim_of_all_space s h]
    rfl
  · intro h1 h2
    simp only [toBigIntAmount]
    rw [if_neg (by simp [h1]), if_pos (by simp [h2])]

/-- C1 witness: the amended statement evaluated at the digit string "7"
with decimals 3. -/
theorem toBigIntAmount_spec_witness :
    toBigIntAmount ("7".toList) 3 = .ok ((digitsToNat ("7".toList) : Int) * 10 ^ 3) :=
  (toBigIntAmount_spec ("7".toList) 3 (by decide)).1 (by decide)

theorem jsToUpper_isEmpty (s : List Char) : (jsToUpper s).isEmpty = s.isEmpty := by
  cases s <;> rfl

/-- C6 counterexample: on a form whose supply is " 5 " and whose symbol is
"!!!", the validator reports no supply error although the supply string
contains non-digit characters, and reports a symbol error although the
symbol is nonempty and at most 10 characters long. -/
theorem validateForm_claim_counterexample :
    ((validateForm cexForm none).supply = none ∧
      (" 5 ".toList).all Char.isDigit = false ∧ (" 5 ".toList).isEmpty = false) ∧
    ((validateForm cexForm none).symbol.isSome = true ∧
      ("!!!".toList).isEmpty = false ∧ ("!!!".toList).length ≤ 10) := by
  decide

/-- C6 (amended): the validator reports a supply error exactly when the
trimmed supply string is empty, contains a non-digit character, parses to
zero, or parses above the unsigned 64-bit maximum; and a symbol error
exactly when the trimmed symbol is empty, the symbol is longer than 10
characters, or its uppercased form contains a character outside A-Z0-9. -/
theorem validateForm_supply_symbol_spec (f : LaunchForm) (img : Option ImageFile) :
    ((validateForm f img).supply = none ↔
      ((jsTrim f.supply).isEmpty = false ∧ (jsTrim f.supply).all Char.isDigit = true ∧
        0 < digitsToNat (jsTrim f.supply) ∧ digitsToNat (jsTrim f.supply) ≤ U64_MAX)) ∧
    ((validateForm f img).symbol = none ↔
      ((jsTrim f.symbol).isEmpty = false ∧ f.symbol.length ≤ MAX_SYMBOL_LENGTH ∧
        (jsToUpper f.symbol).all isSymbolChar = true)) := by
  constructor
  · show supplyError f.supply = none ↔ _
    unfold supplyError
    split_ifs with h1 h2 h3 h4 <;>
      simp_all [Bool.not_eq_true, Nat.not_le, Nat.not_lt, Nat.pos_iff_ne_zero]
  · show symbolError f.symbol = none ↔ _
    unfold symbolError
    split_ifs with h1 h2 h3 <;>
      simp_all [Bool.not_eq_true, Nat.not_le, Nat.not_lt, jsToUpper_isEmpty]
    rcases h3 with h3 | h3
    · rw [h3] at h1
      exact absurd rfl h1
    · exact h3

/-- C9: the validator accepts the form with supply 18446744073709551615
and decimals "9", yet the scaled base-unit amount it computes for the mint
instruction strictly exceeds the unsigned 64-bit maximum: the bound is
enforced on the raw supply only. -/
theorem validator_accepts_overflowing_base_amount :
    (validateForm maxSupplyForm none).isEmpty = true ∧
    jsNumberInt maxSupplyForm.decimals = some 9 ∧
    toBigIntAmount maxSupplyForm.supply 9 = .ok (18446744073709551615 * 10 ^ 9) ∧
    (U64_MAX : Int) < 18446744073709551615 * 10 ^ 9 :=
  ⟨by decide, by decide, by rfl, by decide⟩

/-- C10: a decimals field that is empty or all whitespace produces no
decimals error: the numeric coercion maps it to 0, which lies in the
closed range 0..9. -/
theorem validateForm_blank_decimals_ok (f : LaunchForm) (img : Option ImageFile)
    (h : f.decimals.all isJsSpace = true) :
    (validateForm f img).decimals = none := by
  show decimalsError f.decimals = none
  unfold decimalsError
  unfold jsNumberInt
  rw [jsTrim_of_all_space f.decimals h]
  rfl

/-- C10 witness: a form whose decimals field is a single blank validates
with no decimals error. -/
theorem validateForm_blank_decimals_ok_witness :
    (validateForm blankDecimalsForm none).decimals = none :=
  validateForm_blank_decimals_ok blankDecimalsForm none (by decide)

/-- C5: with no JWT and no complete API key/secret pair configured, the
upload route answers 500 with the configuration-error message and performs
no outbound pinning call. -/
theorem upload_missing_credentials_500 (env : PinataEnv) (req : UploadRequest)
    (oracle : PinOracle) (h1 : envHasJwt env = false) (h2 : envHasApiKey env = false) :
    POST env req oracle =
      ⟨500, .errorBody ("Server configuration error: Missing Pinata credentials."), []⟩ := by
  unfold POST
  rw [if_pos (by simp [h1, h2])]

/-- C5 witness: the route evaluated on an environment with all three
credential variables unset. -/
theorem upload_missing_credentials_500_witness :
    POST envNoCreds reqValid okPins =
      ⟨500, .errorBody ("Server configuration error: Missing Pinata credentials."), []⟩ :=
  upload_missing_credentials_500 envNoCreds reqValid okPins rfl rfl

theorem upload_valid_fields (req : UploadRequest) (image : ImageFile)
    (himg : req.image = some image) (hv : uploadValidationFails req = false) :
    image.size ≤ MAX_IMAGE_SIZE_BYTES ∧ VALID_IMAGE_TYPES.contains image.type = true ∧
    (jsTrim req.name).isEmpty = false ∧ (jsTrim req.name).length ≤ MAX_NAME_LENGTH ∧
    (jsTrim req.symbol).isEmpty = false ∧ (jsTrim req.symbol).length ≤ MAX_SYMBOL_LENGTH ∧
    (jsTrim req.description).length ≤ MAX_DESCRIPTION_LENGTH := by
  unfold uploadValidationFails at hv
  rw [himg] at hv
  simp only [Bool.or_eq_false_iff, decide_eq_false_iff_not, Bool.not_eq_false',
    Bool.not_eq_true, Nat.not_lt, List.isEmpty_eq_false] at hv
  obtain ⟨⟨⟨⟨⟨⟨hsz, hty⟩, hn⟩, hnl⟩, hs⟩, hsl⟩, hd2⟩ := hv
  exact ⟨hsz, hty, by simp [List.isEmpty_eq_false, hn], hnl,
    by simp [List.isEmpty_eq_false, hs], hsl, hd2⟩

theorem POST_of_valid (env : PinataEnv) (req : UploadRequest) (oracle : PinOracle)
    (hc : (!envHasJwt env && !envHasApiKey env) = false)
    (image : ImageFile) (himg : req.image = some image)
    (hv : uploadValidationFails req = false) :
    POST env req oracle =
      match oracle.fileReply with
      | .httpError => ⟨500, .errorBody ("Failed to upload image to IPFS"), [.pinFile image]⟩
      | .okNoHash =>
          ⟨500, .errorBody ("IPFS upload failed - no hash returned"), [.pinFile image]⟩
      | .ok cid =>
        match oracle.jsonReply with
        | .httpError =>
            ⟨500, .errorBody ("Failed to upload metadata to IPFS"),
              [.pinFile image, .pinJson (uploadMetadataOf req image cid)]⟩
        | .okNoHash =>
            ⟨500, .errorBody ("IPFS upload failed - no hash returned"),
              [.pinFile image, .pinJson (uploadMetadataOf req image cid)]⟩
        | .ok mcid =>
            ⟨200, .successBody (ipfsGatewayUrl cid) (ipfsGatewayUrl mcid),
              [.pinFile image, .pinJson (uploadMetadataOf req image cid)]⟩ := by
  obtain ⟨hsz, hty, hn, hnl, hs, hsl, hd2⟩ := upload_valid_fields req image himg hv
  unfold POST
  rw [hc]
  simp only [himg, Bool.false_eq_true, if_false]
  rw [if_neg (by simpa [Nat.not_lt] using hsz), if_neg (by simp [List.mem_of_elem_eq_true hty]),
    if_neg (by simp [hn]), if_neg (by simpa [Nat.not_lt] using hnl),
    if_neg (by simp [hs]), if_neg (by simpa [Nat.not_lt] using hsl),
    if_neg (by simpa [Nat.not_lt] using hd2)]
  rfl

theorem POST_of_invalid (env : PinataEnv) (req : UploadRequest) (oracle : PinOracle)
    (hc : (!envHasJwt env && !envHasApiKey env) = false)
    (hv : uploadValidationFails req = true) :
    ∃ m, POST env req oracle = ⟨400, .errorBody m, []⟩ := by
  unfold POST
  rw [hc]
  simp only [Bool.false_eq_true, if_false]
  unfold uploadValidationFails at hv
  rcases himg : req.image with _ | image
  · simp only [himg] at hv ⊢
    exact ⟨_, rfl⟩
  · simp only [himg] at hv ⊢
    by_cases h1 : image.size > MAX_IMAGE_SIZE_BYTES
    · exact ⟨_, by rw [if_pos h1]⟩
    rw [if_neg h1]
    by_cases h2 : (!(VALID_IMAGE_TYPES.contains image.type)) = true
    · exact ⟨_, by rw [if_pos h2]⟩
    rw [if_neg h2]
    by_cases h3 : (jsTrim req.name).isEmpty = true
    · exact ⟨_, by rw [if_pos h3]⟩
    rw [if_neg h3]
    by_cases h4 : (jsTrim req.name).length > MAX_NAME_LENGTH
    · exact ⟨_, by rw [if_pos h4]⟩
    rw [if_neg h4]
    by_cases h5 : (jsTrim req.symbol).isEmpty = true
    · exact ⟨_, by rw [if_pos h5]⟩
    rw [if_neg h5]
    by_cases h6 : (jsTrim req.symbol).length > MAX_SYMBOL_LENGTH
    · exact ⟨_, by rw [if_pos h6]⟩
    rw [if_neg h6]
    by_cases h7 : (jsTrim req.description).length > MAX_DESCRIPTION_LENGTH
    · exact ⟨_, by rw [if_pos h7]⟩
    exfalso
    simp [h1, h2, h3, h4, h5, h6, h7] at hv
    exact hv (List.mem_of_elem_eq_true (by simpa using h2))

theorem image_some_of_valid (req : UploadRequest) (hv : uploadValidationFails req = false) :
    ∃ image, req.image = some image := by
  unfold uploadValidationFails at hv
  rcases h : req.image with _ | image
  · rw [h] at hv
    exact absurd hv (by simp)
  · exact ⟨image, rfl⟩

/-- C8 (amended): provided pinning credentials are configured, the route
answers 4xx exactly when one of its validation rules (checked on the
trimmed fields) fails, answers 500 exactly when validation passes but a
pinning call fails, answers 200 exactly when validation passes and both
pins succeed, sends a JSON error body with every non-200 answer, and on
success returns the two gateway URLs. -/
theorem upload_status_spec (env : PinataEnv) (req : UploadRequest) (oracle : PinOracle)
    (hc : (envHasJwt env || envHasApiKey env) = true) :
    ((400 ≤ (POST env req oracle).status ∧ (POST env req oracle).status < 500) ↔
      uploadValidationFails req = true) ∧
    ((POST env req oracle).status = 500 ↔
      (uploadValidationFails req = false ∧
        (isOkReply oracle.fileReply && isOkReply oracle.jsonReply) = false)) ∧
    ((POST env req oracle).status = 200 ↔
      (uploadValidationFails req = false ∧
        isOkReply oracle.fileReply = true ∧ isOkReply oracle.jsonReply = true)) ∧
    ((POST env req oracle).status ≠ 200 → ∃ m, (POST env req oracle).body = .errorBody m) ∧
    (∀ c mc, uploadValidationFails req = false → oracle.fileReply = .ok c →
      oracle.jsonReply = .ok mc →
      (POST env req oracle).body = .successBody (ipfsGatewayUrl c) (ipfsGatewayUrl mc)) := by
  have hcond : (!envHasJwt env && !envHasApiKey env) = false := by
    cases h1 : envHasJwt env <;> cases h2 : envHasApiKey env <;> simp_all
  cases hv : uploadValidationFails req with
  | true =>
    obtain ⟨m, hm⟩ := POST_of_invalid env req oracle hcond hv
    rw [hm]
    simp
  | false =>
    obtain ⟨image, himg⟩ := image_some_of_valid req hv
    rw [POST_of_valid env req oracle hcond image himg hv]
    rcases hf : oracle.fileReply with c | _ | _ <;>
      rcases hj : oracle.jsonReply with mc | _ | _ <;>
        simp_all [isOkReply]

/-- C8 counterexample: with no credentials configured, a request with no
image fails a validation rule of the claim yet the route answers 500, not
4xx (the credentials check runs first); and with credentials configured, a
request whose name is a single blank violates none of the rules of the claim as
worded on the supplied values, yet the route answers 400 (it checks the
trimmed values). -/
theorem upload_claim_counterexample :
    (uploadValidationFailsLiteral reqNoImage = true ∧
      (POST envNoCreds reqNoImage okPins).status = 500) ∧
    (uploadValidationFailsLiteral reqSpaceName = false ∧
      (POST envJwt reqSpaceName okPins).status = 400) := by
  decide

/-- C8 witness: a fully valid request against a JWT-configured
environment with both pins succeeding yields the success body with the two
gateway URLs. -/
theorem upload_status_spec_witness :
    (POST envJwt reqValid okPins).body =
      .successBody (ipfsGatewayUrl ("c1".toList)) (ipfsGatewayUrl ("m1".toList)) :=
  (upload_status_spec envJwt reqValid okPins (by decide)).2.2.2.2 ("c1".toList) ("m1".toList)
    (by decide) rfl rfl

/-- C4: for any request that reaches the metadata pin (credentials
configured, validation passed, image pinned), the extensions field of the
pinned document is omitted exactly when the trimmed website, twitter and
telegram values are all empty, and otherwise holds exactly the non-empty
subset of the three keys, each mapped to its supplied value. -/
theorem upload_metadata_extensions (env : PinataEnv) (req : UploadRequest) (oracle : PinOracle)
    (hc : (envHasJwt env || envHasApiKey env) = true)
    (hv : uploadValidationFails req = false)
    (image : ImageFile) (himg : req.image = some image)
    (cid : List Char) (hf : oracle.fileReply = .ok cid) :
    (POST env req oracle).calls =
      [.pinFile image, .pinJson (uploadMetadataOf req image cid)] ∧
    (uploadMetadataOf req image cid).extensions =
      (if (jsTrim req.website).isEmpty && (jsTrim req.twitter).isEmpty &&
          (jsTrim req.telegram).isEmpty then none
       else some
        { website := if (jsTrim req.website).isEmpty then none else some (jsTrim req.website)
          twitter := if (jsTrim req.twitter).isEmpty then none else some (jsTrim req.twitter)
          telegram := if (jsTrim req.telegram).isEmpty then none
                      else some (jsTrim req.telegram) }) := by
  have hcond : (!envHasJwt env && !envHasApiKey env) = false := by
    cases h1 : envHasJwt env <;> cases h2 : envHasApiKey env <;> simp_all
  constructor
  · rw [POST_of_valid env req oracle hcond image himg hv, hf]
    rcases hj : oracle.jsonReply with mc | _ | _ <;> simp
  · unfold uploadMetadataOf buildMetadata optNonEmpty
    rcases hw : (jsTrim req.website).isEmpty <;>
      rcases ht : (jsTrim req.twitter).isEmpty <;>
        rcases hg : (jsTrim req.telegram).isEmpty <;> simp_all

/-- C4 witness: a request carrying only a website link pins a metadata
document whose extensions block holds exactly that key. -/
theorem upload_metadata_extensions_witness :
    (POST envJwt reqValid okPins).calls =
      [.pinFile img0, .pinJson (uploadMetadataOf reqValid img0 ("c1".toList))] ∧
    (uploadMetadataOf reqValid img0 ("c1".toList)).extensions =
      (if (jsTrim reqValid.website).isEmpty && (jsTrim reqValid.twitter).isEmpty &&
          (jsTrim reqValid.telegram).isEmpty then none
       else some
        { website := if (jsTrim reqValid.website).isEmpty then none
                     else some (jsTrim reqValid.website)
          twitter := if (jsTrim reqValid.twitter).isEmpty then none
                     else some (jsTrim reqValid.twitter)
          telegram := if (jsTrim reqValid.telegram).isEmpty then none
                      else some (jsTrim reqValid.telegram) }) :=
  upload_metadata_extensions envJwt reqValid okPins (by decide) (by decide) img0 rfl
    ("c1".toList) rfl

/-- C7: when the wallet key is absent, or the validator reports an error,
or an available balance reading lies below the estimated cost threshold,
`createToken` sets an error status and returns with nothing submitted and
the step counter untouched. -/
theorem createToken_gating (prior : UIState) (inp : CreateTokenInput)
    (h : inp.publicKey = none ∨ (validateForm inp.form inp.imageFile).isEmpty = false ∨
      balanceBelowCost inp.walletBalance = true) :
    (createToken prior inp).submitted = [] ∧
    (createToken prior inp).ui.statusType = .error ∧
    (createToken prior inp).ui.currentStep = prior.currentStep ∧
    (createToken prior inp).ui.isLaunching = prior.isLaunching := by
  unfold createToken
  rcases h with h | h | h
  · rw [h]
    exact ⟨rfl, rfl, rfl, rfl⟩
  · rcases hpk : inp.publicKey with _ | pk
    · exact ⟨rfl, rfl, rfl, rfl⟩
    · simp only [hpk, h, Bool.not_false, if_true]
      simp
  · rcases hpk : inp.publicKey with _ | pk
    · exact ⟨rfl, rfl, rfl, rfl⟩
    · rcases hval : (validateForm inp.form inp.imageFile).isEmpty
      · simp only [hpk, hval, Bool.not_false, if_true]
        simp
      · simp only [hpk, hval, Bool.not_true, if_false, h, if_true]
        simp

/-- C7 witness: the gate evaluated with no wallet connected. -/
theorem createToken_gating_witness :
    (createToken ui0 inpNoWallet).submitted = [] ∧
    (createToken ui0 inpNoWallet).ui.statusType = .error ∧
    (createToken ui0 inpNoWallet).ui.currentStep = ui0.currentStep ∧
    (createToken ui0 inpNoWallet).ui.isLaunching = ui0.isLaunching :=
  createToken_gating ui0 inpNoWallet (Or.inl rfl)

theorem supply_ok_of_form_valid (f : LaunchForm) (img : Option ImageFile)
    (hval : (validateForm f img).isEmpty = true) : supplyError f.supply = none := by
  unfold validateForm FormErrors.isEmpty at hval
  simp only [Bool.and_eq_true, Option.isNone_iff_eq_none] at hval
  exact hval.1.1.2

/-- C2: on a run that passes all gates and whose external calls succeed,
an empty (after trimming) metadata URI skips the metadata step entirely —
no metadata instruction is ever submitted, the revocation transaction with
its two revocation instructions still runs, and the run ends in the
success state — while a nonempty URI executes the metadata step between
the mint and revocation transactions. -/
theorem createToken_metadata_skip (prior : UIState) (inp : CreateTokenInput) (pk : Address)
    (hpk : inp.publicKey = some pk)
    (hval : (validateForm inp.form inp.imageFile).isEmpty = true)
    (hbal : balanceBelowCost inp.walletBalance = false)
    (lamports : Nat) (hrent : inp.oracle.rentExemption = .ok lamports)
    (bh : Nat) (hbh : inp.oracle.latestBlockhash = .ok bh)
    (s1 : Nat) (hs1 : inp.oracle.sendMintTx = .ok s1)
    (hc1 : inp.oracle.confirmMintTx = .ok ())
    (s2 : Nat) (hs2 : inp.oracle.sendMetadataTx = .ok s2)
    (hc2 : inp.oracle.confirmMetadataTx = .ok ())
    (s3 : Nat) (hs3 : inp.oracle.sendRevokeTx = .ok s3)
    (hc3 : inp.oracle.confirmRevokeTx = .ok ()) :
    ((jsTrim inp.form.metadataUrl).isEmpty = true →
      ∃ mintTx, (createToken prior inp).submitted = [mintTx, revokeTxIxs pk inp.mintKeypair] ∧
        mintTx.all (fun ix => !ix.isMetadataIx) = true ∧
        (createToken prior inp).ui.statusType = .success ∧
        (createToken prior inp).ui.currentStep = 5) ∧
    ((jsTrim inp.form.metadataUrl).isEmpty = false →
      ∃ mintTx, (createToken prior inp).submitted =
          [mintTx, metadataTxIxs inp.form, revokeTxIxs pk inp.mintKeypair] ∧
        mintTx.all (fun ix => !ix.isMetadataIx) = true ∧
        (createToken prior inp).ui.statusType = .success ∧
        (createToken prior inp).ui.currentStep = 5) := by
  have hsup := supply_ok_of_form_valid inp.form inp.imageFile hval
  have hamt := toBigIntAmount_of_supply_ok inp.form.supply
    ((jsNumberInt inp.form.decimals).getD 0).toNat hsup
  unfold createToken createTokenSteps createTokenFinish
  simp only [hpk, hval, hbal, Bool.not_true, Bool.false_eq_true, if_false,
    hrent, hamt, hbh, hs1, hc1, hs2, hc2, hs3, hc3]
  constructor
  · intro hmeta
    simp only [hmeta, if_true]
    exact ⟨_, rfl, by simp [mintTxIxs, TokenInstruction.isMetadataIx], by simp, by simp⟩
  · intro hmeta
    simp only [hmeta, Bool.false_eq_true, if_false]
    exact ⟨_, rfl, by simp [mintTxIxs, TokenInstruction.isMetadataIx], by simp, by simp⟩

/-- C3: whichever external call of the sequence throws first — the rent
query, the blockhash fetch, a wallet signature request (rejection), or a
confirmation — `createToken` ends with the message of the thrown error (or the
generic fallback) displayed, the status type error, the step counter reset
to zero, and no later transaction of the sequence submitted. -/
theorem createToken_failure_resets (prior : UIState) (inp : CreateTokenInput) (pk : Address)
    (hpk : inp.publicKey = some pk)
    (hval : (validateForm inp.form inp.imageFile).isEmpty = true)
    (hbal : balanceBelowCost inp.walletBalance = false) :
    (∀ e, inp.oracle.rentExemption = .error e →
      createToken prior inp = ⟨createTokenErrorUI prior e, []⟩) ∧
    (∀ lamports e, inp.oracle.rentExemption = .ok lamports →
      inp.oracle.latestBlockhash = .error e →
      createToken prior inp = ⟨createTokenErrorUI prior e, []⟩) ∧
    (∀ lamports bh e, inp.oracle.rentExemption = .ok lamports →
      inp.oracle.latestBlockhash = .ok bh → inp.oracle.sendMintTx = .error e →
      createToken prior inp = ⟨createTokenErrorUI prior e, []⟩) ∧
    (∀ lamports bh s1 e, inp.oracle.rentExemption = .ok lamports →
      inp.oracle.latestBlockhash = .ok bh → inp.oracle.sendMintTx = .ok s1 →
      inp.oracle.confirmMintTx = .error e →
      ∃ mintTx, createToken prior inp = ⟨createTokenErrorUI prior e, [mintTx]⟩ ∧
        mintTx.all (fun ix => !ix.isMetadataIx && !ix.isSetAuthorityIx) = true) ∧
    (∀ lamports bh s1 e, (jsTrim inp.form.metadataUrl).isEmpty = false →
      inp.oracle.rentExemption = .ok lamports → inp.oracle.latestBlockhash = .ok bh →
      inp.oracle.sendMintTx = .ok s1 → inp.oracle.confirmMintTx = .ok () →
      inp.oracle.sendMetadataTx = .error e →
      ∃ mintTx, createToken prior inp = ⟨createTokenErrorUI prior e, [mintTx]⟩ ∧
        mintTx.all (fun ix => !ix.isMetadataIx && !ix.isSetAuthorityIx) = true) ∧
    (∀ lamports bh s1 s2 e, (jsTrim inp.form.metadataUrl).isEmpty = false →
      inp.oracle.rentExemption = .ok lamports → inp.oracle.latestBlockhash = .ok bh →
      inp.oracle.sendMintTx = .ok s1 → inp.oracle.confirmMintTx = .ok () →
      inp.oracle.sendMetadataTx = .ok s2 → inp.oracle.confirmMetadataTx = .error e →
      ∃ mintTx, createToken prior inp =
          ⟨createTokenErrorUI prior e, [mintTx, metadataTxIxs inp.form]⟩ ∧
        mintTx.all (fun ix => !ix.isMetadataIx && !ix.isSetAuthorityIx) = true) ∧
    (∀ lamports bh s1 e, inp.oracle.rentExemption = .ok lamports →
      inp.oracle.latestBlockhash = .ok bh → inp.oracle.sendMintTx = .ok s1 →
      inp.oracle.confirmMintTx = .ok () →
      ((jsTrim inp.form.metadataUrl).isEmpty = false →
        (∃ s2, inp.oracle.sendMetadataTx = .ok s2) ∧ inp.oracle.confirmMetadataTx = .ok ()) →
      inp.oracle.sendRevokeTx = .error e →
      (createToken prior inp).ui = createTokenErrorUI prior e ∧
      (createToken prior inp).submitted.all
        (fun tx => tx.all (fun ix => !ix.isSetAuthorityIx)) = true) ∧
    (∀ lamports bh s1 s3 e, inp.oracle.rentExemption = .ok lamports →
      inp.oracle.latestBlockhash = .ok bh → inp.oracle.sendMintTx = .ok s1 →
      inp.oracle.confirmMintTx = .ok () →
      ((jsTrim inp.form.metadataUrl).isEmpty = false →
        (∃ s2, inp.oracle.sendMetadataTx = .ok s2) ∧ inp.oracle.confirmMetadataTx = .ok ()) →
      inp.oracle.sendRevokeTx = .ok s3 → inp.oracle.confirmRevokeTx = .error e →
      (createToken prior inp).ui = createTokenErrorUI prior e) := by
  have hsup := supply_ok_of_form_valid inp.form inp.imageFile hval
  have hamt := toBigIntAmount_of_supply_ok inp.form.supply
    ((jsNumberInt inp.form.decimals).getD 0).toNat hsup
  refine ⟨?_, ?_, ?_, ?_, ?_, ?_, ?_, ?_⟩
  · intro e h1
    unfold createToken createTokenSteps
    simp only [hpk, hval, hbal, Bool.not_true, Bool.false_eq_true, if_false, h1]
  · intro lamports e h1 h2
    unfold createToken createTokenSteps
    simp only [hpk, hval, hbal, Bool.not_true, Bool.false_eq_true, if_false, h1, hamt, h2]
  · intro lamports bh e h1 h2 h3
    unfold createToken createTokenSteps
    simp only [hpk, hval, hbal, Bool.not_true, Bool.false_eq_true, if_false, h1, hamt, h2, h3]
  · intro lamports bh s1 e h1 h2 h3 h4
    unfold createToken createTokenSteps
    simp only [hpk, hval, hbal, Bool.not_true, Bool.false_eq_true, if_false,
      h1, hamt, h2, h3, h4]
    exact ⟨_, rfl, by simp [mintTxIxs, TokenInstruction.isMetadataIx,
      TokenInstruction.isSetAuthorityIx]⟩
  · intro lamports bh s1 e hm h1 h2 h3 h4 h5
    unfold createToken createTokenSteps
    simp only [hpk, hval, hbal, Bool.not_true, Bool.false_eq_true, if_false,
      h1, hamt, h2, h3, h4, hm, h5]
    exact ⟨_, rfl, by simp [mintTxIxs, TokenInstruction.isMetadataIx,
      TokenInstruction.isSetAuthorityIx]⟩
  · intro lamports bh s1 s2 e hm h1 h2 h3 h4 h5 h6
    unfold createToken createTokenSteps
    simp only [hpk, hval, hbal, Bool.not_true, Bool.false_eq_true, if_false,
      h1, hamt, h2, h3, h4, hm, h5, h6]
    exact ⟨_, rfl, by simp [mintTxIxs, TokenInstruction.isMetadataIx,
      TokenInstruction.isSetAuthorityIx]⟩
  · intro lamports bh s1 e h1 h2 h3 h4 hmeta h5
    unfold createToken createTokenSteps createTokenFinish
    rcases hm : (jsTrim inp.form.metadataUrl).isEmpty with _ | _
    · obtain ⟨⟨s2, hs2⟩, hc2⟩ := hmeta hm
      simp only [hpk, hval, hbal, Bool.not_true, Bool.false_eq_true, if_false,
        h1, hamt, h2, h3, h4, hm, hs2, hc2, h5]
      exact ⟨by trivial, by simp [mintTxIxs, metadataTxIxs, TokenInstruction.isSetAuthorityIx]⟩
    · simp only [hpk, hval, hbal, Bool.not_true, Bool.false_eq_true, if_false,
        h1, hamt, h2, h3, h4, hm, if_true, h5]
      exact ⟨by trivial, by simp [mintTxIxs, TokenInstruction.isSetAuthorityIx]⟩
  · intro lamports bh s1 s3 e h1 h2 h3 h4 hmeta h5 h6
    unfold createToken createTokenSteps createTokenFinish
    rcases hm : (jsTrim inp.form.metadataUrl).isEmpty with _ | _
    · obtain ⟨⟨s2, hs2⟩, hc2⟩ := hmeta hm
      simp only [hpk, hval, hbal, Bool.not_true, Bool.false_eq_true, if_false,
        h1, hamt, h2, h3, h4, hm, hs2, hc2, h5, h6]
    · simp only [hpk, hval, hbal, Bool.not_true, Bool.false_eq_true, if_false,
        h1, hamt, h2, h3, h4, hm, if_true, h5, h6]

/-- C2 witness: a successful run with an empty metadata URI submits the
mint transaction and the revocation transaction only. -/
theorem createToken_metadata_skip_witness :
    ∃ mintTx, (createToken ui0 inpSkipMeta).submitted =
        [mintTx, revokeTxIxs 1 inpSkipMeta.mintKeypair] ∧
      mintTx.all (fun ix => !ix.isMetadataIx) = true ∧
      (createToken ui0 inpSkipMeta).ui.statusType = .success ∧
      (createToken ui0 inpSkipMeta).ui.currentStep = 5 :=
  (createToken_metadata_skip ui0 inpSkipMeta 1 rfl (by decide) rfl 1461600 rfl 1 rfl 11 rfl rfl
    12 rfl rfl 13 rfl rfl).1 rfl

/-- C3 witness: a run whose first wallet-signature request is rejected
ends in the error state with the rejection message, the step counter at
zero, and nothing submitted. -/
theorem createToken_failure_resets_witness :
    createToken ui0 inpRejected =
      ⟨createTokenErrorUI ui0 (.jsError "User rejected the request."), []⟩ :=
  (createToken_failure_resets ui0 inpRejected 1 rfl (by decide) rfl).2.2.1 1461600 1
    (.jsError "User rejected the request.") rfl rfl rfl
